import Mathlib

/-!
# Verification of the product-hunt-scraper front end and scrape API

A shallow embedding of the repository's TypeScript front end
(`frontend/app/page.tsx`, `product-hunt-frontend/app/supabase.ts`), the
Next.js scrape API route (the `POST` handler spawning the Python scraper),
and — modelled from the spec where the Python backend is not among the
provided files — the scraper's deduplicated insert and retry-on-HTTP-error
loop.

The Supabase client is modelled as a small query language (`Query`) with an
interpreter `runQuery` over a database state that is the list of rows of the
`products` table; each front-end read builds the query its source builds and
extracts the result, defaulting on a reported error exactly as the source
does.
-/

namespace PHS

/-- A row of the `products` table (interface `Product` in
`product-hunt-frontend/app/supabase.ts`). -/
structure Product where
  id : String
  name : String
  tagline : String
  description : Option String
  url : Option String
  website_url : Option String
  thumbnail_url : Option String
  launch_date : Option String
  upvotes : Int
  maker_ids : Option (List String)
  topics : Option (List String)
  created_at : String
  updated_at : String
deriving DecidableEq, Repr

/-- Insert a product into a list already sorted by `upvotes` descending,
keeping earlier rows first among equal vote counts (stable, as the
database's order-by is observed on the returned rows). -/
def insertByUpvotes (p : Product) : List Product → List Product
  | [] => [p]
  | q :: qs => if q.upvotes < p.upvotes then p :: q :: qs else q :: insertByUpvotes p qs

/-- `order('upvotes', { ascending: false })`: the rows sorted by `upvotes`
descending. -/
def sortByUpvotes : List Product → List Product
  | [] => []
  | p :: ps => insertByUpvotes p (sortByUpvotes ps)

/-- Does `pat` start the list `l`? Char-list helper for the `ilike` filter. -/
def startsWithChars : List Char → List Char → Bool
  | [], _ => true
  | _ :: _, [] => false
  | c :: cs, d :: ds => c == d && startsWithChars cs ds

/-- Does `pat` occur contiguously inside `l`? -/
def hasSubChars (pat : List Char) : List Char → Bool
  | [] => pat.isEmpty
  | c :: t => startsWithChars pat (c :: t) || hasSubChars pat t

/-- SQL `s ILIKE '%q%'`: case-insensitive containment of `q` in `s`. -/
def ilikeContains (s q : String) : Bool :=
  hasSubChars q.toLower.toList s.toLower.toList

/-- The criterion of `searchProducts`'s `.or(...)` filter:
`name.ilike.%q%,tagline.ilike.%q%,description.ilike.%q%` (a NULL
description matches nothing). -/
def matchesQuery (q : String) (p : Product) : Bool :=
  ilikeContains p.name q || ilikeContains p.tagline q ||
    (match p.description with
     | some d => ilikeContains d q
     | none => false)

/-- The row filters the front end's queries use: `.eq('id', _)`,
`.eq('launch_date', _)`, and `searchProducts`'s `.or(...)` of three
`ilike` patterns. -/
inductive Filter where
  | eqId (i : String)
  | eqLaunchDate (d : String)
  | textSearch (q : String)
deriving DecidableEq, Repr

/-- Apply one filter to the rows. -/
def applyFilter (f : Filter) (rows : List Product) : List Product :=
  match f with
  | .eqId i => rows.filter (fun p => p.id == i)
  | .eqLaunchDate d => rows.filter (fun p => p.launch_date == some d)
  | .textSearch q => rows.filter (matchesQuery q)

/-- A `select` call chain on the `products` table: its filters, whether it
orders by upvotes descending, its `.range(lo, hi)` window (inclusive on
both ends), its `.limit(n)`, whether it is a `count: 'exact', head: true`
count request, and whether it ends in `.single()`. -/
structure SelectSpec where
  filters : List Filter
  orderUpvotesDesc : Bool
  rangeFromTo : Option (Nat × Nat)
  limitTo : Option Nat
  countHead : Bool
  single : Bool
deriving DecidableEq, Repr

/-- A query the front end sends through the Supabase client: a read
(`select` chain) or an insert of one row. -/
inductive Query where
  | select (s : SelectSpec)
  | insert (p : Product)
deriving DecidableEq, Repr

/-- Is the query a read-only `select`? -/
def Query.isSelect : Query → Bool
  | .select _ => true
  | .insert _ => false

/-- The rows a filter list keeps, applied left to right. -/
def filteredRows (fs : List Filter) (db : List Product) : List Product :=
  fs.foldl (fun r f => applyFilter f r) db

/-- The rows a `select` chain returns from database state `db`: filter,
then order, then the inclusive `.range` window, then `.limit`. -/
def selectRows (s : SelectSpec) (db : List Product) : List Product :=
  let base := filteredRows s.filters db
  let ord := if s.orderUpvotesDesc then sortByUpvotes base else base
  let rng := match s.rangeFromTo with
    | some (a, b) => (ord.drop a).take (b + 1 - a)
    | none => ord
  match s.limitTo with
  | some n => rng.take n
  | none => rng

/-- What a query evaluates to: a row list, an optional single row
(`.single()`), an exact row count, or an insert acknowledgement. -/
inductive QueryResult where
  | rows (ps : List Product)
  | maybeRow (p : Option Product)
  | count (n : Nat)
  | inserted
deriving DecidableEq, Repr

/-- Run a query against the `products` table: a `select` reads (a
`count/head` request counts the filtered rows, `.single()` yields the row
only when exactly one matches) and leaves the state unchanged; an insert
appends the row. -/
def runQuery : Query → List Product → QueryResult × List Product
  | .select s, db =>
      (if s.countHead then .count (filteredRows s.filters db).length
       else if s.single then
         match selectRows s db with
         | [p] => .maybeRow (some p)
         | _ => .maybeRow none
       else .rows (selectRows s db), db)
  | .insert p, db => (.inserted, db ++ [p])

/-- Whether the Supabase client reported an error for the request (the
`error` field of the destructured reply). -/
inductive DbOutcome where
  | ok
  | error (msg : String)
deriving DecidableEq, Repr

/-- `const PAGE_SIZE = 20` in `frontend/app/page.tsx`. -/
def PAGE_SIZE : Nat := 20

/-- The query `getTopProducts` builds: select all, order by upvotes
descending, limit. -/
def getTopProductsQuery (limit : Nat) : Query :=
  .select { filters := [], orderUpvotesDesc := true, rangeFromTo := none,
            limitTo := some limit, countHead := false, single := false }

/-- The query `getProductById` builds: `.eq('id', id).single()`. -/
def getProductByIdQuery (i : String) : Query :=
  .select { filters := [.eqId i], orderUpvotesDesc := false, rangeFromTo := none,
            limitTo := none, countHead := false, single := true }

/-- The query `getProductsByDate` builds: `.eq('launch_date', date)` ordered
by upvotes descending. -/
def getProductsByDateQuery (d : String) : Query :=
  .select { filters := [.eqLaunchDate d], orderUpvotesDesc := true, rangeFromTo := none,
            limitTo := none, countHead := false, single := false }

/-- The query `searchProducts` builds: the `.or` ilike filter, order by
upvotes descending, limit 20. -/
def searchProductsQuery (q : String) : Query :=
  .select { filters := [.textSearch q], orderUpvotesDesc := true, rangeFromTo := none,
            limitTo := some 20, countHead := false, single := false }

/-- The query `fetchProductsPaginated` builds: order by upvotes descending,
`.range(from, to)` with `from = (page - 1) * pageSize` and
`to = from + pageSize - 1`. -/
def fetchProductsPaginatedQuery (page pageSize : Nat) : Query :=
  .select { filters := [], orderUpvotesDesc := true,
            rangeFromTo := some ((page - 1) * pageSize, (page - 1) * pageSize + pageSize - 1),
            limitTo := none, countHead := false, single := false }

/-- The query `fetchTotalProductCount` builds:
`select('*', { count: 'exact', head: true })`. -/
def fetchTotalProductCountQuery : Query :=
  .select { filters := [], orderUpvotesDesc := false, rangeFromTo := none,
            limitTo := none, countHead := true, single := false }

/-- `getTopProducts` (supabase.ts): on a reported error logs and returns
`[]`, otherwise the returned rows. -/
def getTopProducts (db : List Product) (o : DbOutcome) (limit : Nat) : List Product :=
  match o with
  | .error _ => []
  | .ok =>
    match (runQuery (getTopProductsQuery limit) db).1 with
    | .rows ps => ps
    | _ => []

/-- `getProductById` (supabase.ts): on a reported error returns `null`,
otherwise the single row. -/
def getProductById (db : List Product) (o : DbOutcome) (i : String) : Option Product :=
  match o with
  | .error _ => none
  | .ok =>
    match (runQuery (getProductByIdQuery i) db).1 with
    | .maybeRow p => p
    | _ => none

/-- `getProductsByDate` (supabase.ts): on a reported error returns `[]`. -/
def getProductsByDate (db : List Product) (o : DbOutcome) (d : String) : List Product :=
  match o with
  | .error _ => []
  | .ok =>
    match (runQuery (getProductsByDateQuery d) db).1 with
    | .rows ps => ps
    | _ => []

/-- `searchProducts` (supabase.ts): on a reported error returns `[]`. -/
def searchProducts (db : List Product) (o : DbOutcome) (q : String) : List Product :=
  match o with
  | .error _ => []
  | .ok =>
    match (runQuery (searchProductsQuery q) db).1 with
    | .rows ps => ps
    | _ => []

/-- `fetchProductsPaginated` (frontend/app/page.tsx): on a reported error
returns `[]`, otherwise the requested window of the upvote-ordered rows. -/
def fetchProductsPaginated (db : List Product) (o : DbOutcome) (page pageSize : Nat) :
    List Product :=
  match o with
  | .error _ => []
  | .ok =>
    match (runQuery (fetchProductsPaginatedQuery page pageSize) db).1 with
    | .rows ps => ps
    | _ => []

/-- `fetchTotalProductCount` (frontend/app/page.tsx): on a reported error
returns `0`, otherwise the exact row count. -/
def fetchTotalProductCount (db : List Product) (o : DbOutcome) : Nat :=
  match o with
  | .error _ => 0
  | .ok =>
    match (runQuery fetchTotalProductCountQuery db).1 with
    | .count n => n
    | _ => 0

/-- `Math.ceil(count / PAGE_SIZE)` on a natural count: ceiling division
by 20. -/
def ceilDivPage (n : Nat) : Nat := (n + (PAGE_SIZE - 1)) / PAGE_SIZE

/-- `setTotalPages(Math.max(1, Math.ceil(count / PAGE_SIZE)))`
(frontend/app/page.tsx, the effect recomputing the page count). -/
def totalPages (n : Nat) : Nat := max 1 (ceilDivPage n)

/-- An entry of the pagination control's page list: a page number button or
a `'...'` ellipsis (which opens the jump-to-page input). -/
inductive PageItem where
  | num (n : Nat)
  | dots
deriving DecidableEq, Repr

/-- The `pages` list `renderPagination` builds (frontend/app/page.tsx):
all pages when `totalPages <= 5`, otherwise one of three windows around
the current page. -/
def renderPages (page tp : Nat) : List PageItem :=
  if tp ≤ 5 then (List.range tp).map (fun i => .num (i + 1))
  else if page ≤ 3 then [.num 1, .num 2, .num 3, .dots, .num tp]
  else if tp - 2 ≤ page then [.num 1, .dots, .num (tp - 2), .num (tp - 1), .num tp]
  else [.num 1, .dots, .num (page - 1), .num page, .num (page + 1), .dots, .num tp]

/-- The previous button's `disabled={page === 1}`. -/
def prevDisabled (page : Nat) : Bool := page == 1

/-- The next button's `disabled={page === totalPages}`. -/
def nextDisabled (page tp : Nat) : Bool := page == tp

/-- The JSON body the scrape API route destructures: each field is absent
(`undefined`) or present. The numeric limits are kept as the naturals the
front end sends (20 and 100); `.toString()` renders them in decimal. -/
structure ScrapeRequest where
  startDate : Option String
  endDate : Option String
  maxProductsPerDay : Option Nat
  maxTotalProducts : Option Nat
deriving DecidableEq, Repr

/-- The route's reply: `{ success: true, message }`,
`{ error }` with status 400, or `{ error }` with status 500. -/
inductive ScrapeResponse where
  | ok (message : String)
  | badRequest (error : String)
  | serverError (error : String)
deriving DecidableEq, Repr

/-- JavaScript truthiness of the destructured string field: `undefined` and
`''` are falsy. -/
def truthyStr : Option String → Bool
  | none => false
  | some s => !(s == "")

/-- The `POST` handler of the scrape API route: rejects with 400 when
`!startDate || !endDate`; otherwise builds the spawn argument array
(`maxProductsPerDay.toString()` on an absent field throws a `TypeError`,
caught by the surrounding `try` as a 500 with no spawn) and spawns
`python3` on the scraper with the four flags, replying
`{ success: true, message: 'Scraping process started' }`. Returns the
reply and the spawned command, if any. -/
def scrapePost (scraperPath : String) (req : ScrapeRequest) :
    ScrapeResponse × Option (String × List String) :=
  if truthyStr req.startDate && truthyStr req.endDate then
    match req.startDate, req.endDate, req.maxProductsPerDay, req.maxTotalProducts with
    | some sd, some ed, some a, some b =>
      (.ok "Scraping process started",
       some ("python3",
             [scraperPath, "--start-date", sd, "--end-date", ed,
              "--max-products-per-day", toString a,
              "--max-total-products", toString b]))
    | _, _, _, _ => (.serverError "Failed to start scraping process", none)
  else (.badRequest "Start date and end date are required", none)

/-- Modelled from the spec: the scraper's Supabase integration (Python
backend, not among the provided files) performs a deduplicated upsert —
"The system checks if a product already exists before inserting it"
(README, Automatic Deduplication) — keyed on the product's `id`: when a
row with the same `id` is already stored the insert is skipped, otherwise
the row is appended. -/
def saveProduct (db : List Product) (p : Product) : List Product :=
  if db.any (fun q => q.id == p.id) then db else db ++ [p]

/-- One attempt's outcome for an HTTP request to the external GraphQL
API: a response, or an HTTP error with its status code. -/
inductive HttpOutcome (α : Type) where
  | ok (a : α)
  | httpError (code : Nat)
deriving DecidableEq, Repr

/-- Modelled from the spec: the scraper's request loop (Python backend,
not among the provided files) retries a request that fails with an HTTP
error and performs no other failure recovery. `attempts` is the sequence
of outcomes successive attempts would produce; the loop returns the first
response, retrying past every HTTP error, and gives up with `none` only
when the attempts run out. -/
def requestWithRetry {α : Type} : List (HttpOutcome α) → Option α
  | [] => none
  | .ok a :: _ => some a
  | .httpError _ :: rest => requestWithRetry rest

/-! ## Helper lemmas -/

lemma mem_insertByUpvotes (p a : Product) (l : List Product) :
    p ∈ insertByUpvotes a l ↔ p = a ∨ p ∈ l := by
  induction l with
  | nil => simp [insertByUpvotes]
  | cons q qs ih =>
    by_cases h : q.upvotes < a.upvotes
    · simp [insertByUpvotes, h]
    · simp [insertByUpvotes, h, ih]
      tauto

lemma mem_sortByUpvotes (p : Product) (l : List Product) :
    p ∈ sortByUpvotes l ↔ p ∈ l := by
  induction l with
  | nil => simp [sortByUpvotes]
  | cons q qs ih => simp [sortByUpvotes, mem_insertByUpvotes, ih]

lemma fetchProductsPaginated_ok_eq (db : List Product) (p : Nat) :
    fetchProductsPaginated db .ok p PAGE_SIZE =
      ((sortByUpvotes db).drop ((p - 1) * PAGE_SIZE)).take PAGE_SIZE := by
  have h : (p - 1) * PAGE_SIZE + PAGE_SIZE - 1 + 1 - (p - 1) * PAGE_SIZE = PAGE_SIZE := by
    simp only [PAGE_SIZE]; omega
  simp [fetchProductsPaginated, fetchProductsPaginatedQuery, runQuery, selectRows,
        filteredRows, h]

lemma searchProducts_ok_eq (db : List Product) (q : String) :
    searchProducts db .ok q =
      (sortByUpvotes (List.filter (matchesQuery q) db)).take 20 := by
  simp [searchProducts, searchProductsQuery, runQuery, selectRows, filteredRows, applyFilter]

/-! ## Theorems for the claims -/

/-- C4: before inserting a product, the system checks whether one with the
same `id` exists and skips the insert when it does; hence inserting the
same product twice leaves the database exactly as inserting it once
(idempotence of the deduplicated upsert on product id). -/
theorem saveProduct_idempotent (db : List Product) (p : Product) :
    (db.any (fun q => q.id == p.id) = true → saveProduct db p = db)
    ∧ saveProduct (saveProduct db p) p = saveProduct db p := by
  constructor
  · intro h; simp [saveProduct, h]
  · by_cases h : db.any (fun q => q.id == p.id)
    · simp [saveProduct, h]
    · simp [saveProduct, h, List.any_append]

/-- C8: every front-end read, when the client reports a database error,
returns its empty default — an empty list, `none` for `getProductById`,
`0` for the count — instead of propagating the failure (and, being a total
Lean function, never throws). -/
theorem reads_error_default (db : List Product) (msg : String) (limit pg : Nat)
    (i d q : String) :
    getTopProducts db (.error msg) limit = []
    ∧ getProductById db (.error msg) i = none
    ∧ getProductsByDate db (.error msg) d = []
    ∧ searchProducts db (.error msg) q = []
    ∧ fetchProductsPaginated db (.error msg) pg PAGE_SIZE = []
    ∧ fetchTotalProductCount db (.error msg) = 0 :=
  ⟨rfl, rfl, rfl, rfl, rfl, rfl⟩

/-- C9: every front-end read builds a read-only `select` on the `products`
table, and running any of their queries leaves the database state
unchanged. -/
theorem reads_select_and_preserve_db (db : List Product) (limit pg sz : Nat)
    (i d q : String) :
    (Query.isSelect (getTopProductsQuery limit) = true
      ∧ Query.isSelect (getProductByIdQuery i) = true
      ∧ Query.isSelect (getProductsByDateQuery d) = true
      ∧ Query.isSelect (searchProductsQuery q) = true
      ∧ Query.isSelect (fetchProductsPaginatedQuery pg sz) = true
      ∧ Query.isSelect fetchTotalProductCountQuery = true)
    ∧ ((runQuery (getTopProductsQuery limit) db).2 = db
      ∧ (runQuery (getProductByIdQuery i) db).2 = db
      ∧ (runQuery (getProductsByDateQuery d) db).2 = db
      ∧ (runQuery (searchProductsQuery q) db).2 = db
      ∧ (runQuery (fetchProductsPaginatedQuery pg sz) db).2 = db
      ∧ (runQuery fetchTotalProductCountQuery db).2 = db) :=
  ⟨⟨rfl, rfl, rfl, rfl, rfl, rfl⟩, ⟨rfl, rfl, rfl, rfl, rfl, rfl⟩⟩

/-- C10: when a request fails with an HTTP error the scraping loop retries
it — the state after the failure is exactly a fresh run of the remaining
attempts, so retrying is the whole of the recovery behaviour — while a
successful request returns immediately and an exhausted attempt list
yields nothing. -/
theorem requestWithRetry_retries {α : Type} (code : Nat) (a : α)
    (attempts : List (HttpOutcome α)) :
    requestWithRetry (HttpOutcome.httpError code :: attempts) = requestWithRetry attempts
    ∧ requestWithRetry (HttpOutcome.ok a :: attempts) = some a
    ∧ requestWithRetry ([] : List (HttpOutcome α)) = none :=
  ⟨rfl, rfl, rfl⟩

/-- C3: a POST body missing `startDate` or missing `endDate` is rejected
with HTTP 400 and the message `'Start date and end date are required'`,
and no subprocess is spawned. -/
theorem scrapePost_rejects_missing_dates (path : String) (req : ScrapeRequest)
    (h : req.startDate = none ∨ req.endDate = none) :
    scrapePost path req = (.badRequest "Start date and end date are required", none) := by
  rcases h with h | h <;> simp [scrapePost, truthyStr, h]

theorem scrapePost_rejects_missing_dates_witness :
    ((⟨none, some "2025-01-31", some 20, some 100⟩ : ScrapeRequest).startDate = none
      ∨ (⟨none, some "2025-01-31", some 20, some 100⟩ : ScrapeRequest).endDate = none)
    ∧ scrapePost "scraper.py" ⟨none, some "2025-01-31", some 20, some 100⟩ =
        (.badRequest "Start date and end date are required", none) :=
  ⟨Or.inl rfl, scrapePost_rejects_missing_dates "scraper.py" _ (Or.inl rfl)⟩

/-- C2 counterexample: a POST body that does contain both dates but no
`maxProductsPerDay`/`maxTotalProducts` makes the handler throw at
`.toString()`, so it answers 500 and spawns nothing — not `success: true`. -/
theorem scrapePost_missing_limits_counterexample :
    scrapePost "../backend/scraper.py"
        { startDate := some "2025-01-01", endDate := some "2025-01-31",
          maxProductsPerDay := none, maxTotalProducts := none } =
      (.serverError "Failed to start scraping process", none) := by
  rfl

/-- C2 (amended): for a POST body with non-empty `startDate` and `endDate`
that also carries `maxProductsPerDay` and `maxTotalProducts`, the handler
spawns the Python scraper with exactly the four flags taken from the body
and answers `success: true`. -/
theorem scrapePost_spawns (path sd ed : String) (a b : Nat)
    (hsd : sd ≠ "") (hed : ed ≠ "") :
    scrapePost path ⟨some sd, some ed, some a, some b⟩ =
      (.ok "Scraping process started",
       some ("python3", [path, "--start-date", sd, "--end-date", ed,
                         "--max-products-per-day", toString a,
                         "--max-total-products", toString b])) := by
  simp [scrapePost, truthyStr, hsd, hed]

theorem scrapePost_spawns_witness :
    ("2025-01-01" : String) ≠ "" ∧ ("2025-01-31" : String) ≠ ""
    ∧ scrapePost "scraper.py" ⟨some "2025-01-01", some "2025-01-31", some 20, some 100⟩ =
        (.ok "Scraping process started",
         some ("python3", ["scraper.py", "--start-date", "2025-01-01",
                           "--end-date", "2025-01-31",
                           "--max-products-per-day", "20",
                           "--max-total-products", "100"])) :=
  ⟨by decide, by decide,
   scrapePost_spawns "scraper.py" "2025-01-01" "2025-01-31" 20 100 (by decide) (by decide)⟩

/-- C1: with `PAGE_SIZE = 20`, page `p ≥ 1` requests exactly the rows with
zero-based indices `(p-1)*20` through `p*20 - 1` of the upvote-descending
ordering — entry `j` of the page is row `(p-1)*20 + j` and a page holds at
most 20 rows — and the windows partition the indices: every row index lies
in the window of exactly one page, so consecutive pages cover disjoint,
adjacent ranges. -/
theorem fetchProductsPaginated_partition (db : List Product) (p : Nat) (_hp : 1 ≤ p) :
    (∀ j, j < PAGE_SIZE →
        (fetchProductsPaginated db .ok p PAGE_SIZE)[j]? =
          (sortByUpvotes db)[(p - 1) * PAGE_SIZE + j]?)
    ∧ (fetchProductsPaginated db .ok p PAGE_SIZE).length ≤ PAGE_SIZE
    ∧ (∀ i : Nat, ∃! q : Nat,
        1 ≤ q ∧ (q - 1) * PAGE_SIZE ≤ i ∧ i ≤ q * PAGE_SIZE - 1) := by
  refine ⟨?_, ?_, ?_⟩
  · intro j hj
    rw [fetchProductsPaginated_ok_eq, List.getElem?_take_of_lt hj, List.getElem?_drop]
  · rw [fetchProductsPaginated_ok_eq]
    simp
  · intro i
    simp only [PAGE_SIZE]
    exact ⟨i / 20 + 1, by omega, fun y hy => by omega⟩

theorem fetchProductsPaginated_partition_witness :
    (1 : Nat) ≤ 1
    ∧ ((∀ j, j < PAGE_SIZE →
          (fetchProductsPaginated [] .ok 1 PAGE_SIZE)[j]? =
            (sortByUpvotes [])[(1 - 1) * PAGE_SIZE + j]?)
      ∧ (fetchProductsPaginated [] .ok 1 PAGE_SIZE).length ≤ PAGE_SIZE
      ∧ (∀ i : Nat, ∃! q : Nat,
          1 ≤ q ∧ (q - 1) * PAGE_SIZE ≤ i ∧ i ≤ q * PAGE_SIZE - 1)) :=
  ⟨Nat.le_refl 1, fetchProductsPaginated_partition [] 1 (Nat.le_refl 1)⟩

/-- C5: the page count is set to `max 1 ⌈n / 20⌉` — for the empty table it
is 1, and for `n ≥ 1` it is the ceiling (`PAGE_SIZE * (totalPages n - 1) <
n ≤ PAGE_SIZE * totalPages n`) and is the unique page whose window
contains the last row index `n - 1`. -/
theorem totalPages_correct (n : Nat) (hn : 1 ≤ n) :
    totalPages 0 = 1
    ∧ n ≤ PAGE_SIZE * totalPages n
    ∧ PAGE_SIZE * (totalPages n - 1) < n
    ∧ (∀ p : Nat,
        (1 ≤ p ∧ (p - 1) * PAGE_SIZE ≤ n - 1 ∧ n - 1 ≤ p * PAGE_SIZE - 1)
          ↔ p = totalPages n) := by
  simp only [totalPages, ceilDivPage, PAGE_SIZE]
  refine ⟨by decide, by omega, by omega, fun p => ?_⟩
  constructor
  · rintro ⟨h1, h2, h3⟩; omega
  · rintro rfl; omega

theorem totalPages_correct_witness :
    (1 : Nat) ≤ 1
    ∧ (totalPages 0 = 1
      ∧ 1 ≤ PAGE_SIZE * totalPages 1
      ∧ PAGE_SIZE * (totalPages 1 - 1) < 1
      ∧ (∀ p : Nat,
          (1 ≤ p ∧ (p - 1) * PAGE_SIZE ≤ 1 - 1 ∧ 1 - 1 ≤ p * PAGE_SIZE - 1)
            ↔ p = totalPages 1)) :=
  ⟨Nat.le_refl 1, totalPages_correct 1 (Nat.le_refl 1)⟩

/-- C6: the front end's filter operation `searchProducts` restricts the
rows to those matching the user-supplied criterion: every row it returns
matches the `ilike` criterion on name, tagline or description, and is one
of the stored rows. -/
theorem searchProducts_filters (db : List Product) (q : String) :
    (searchProducts db .ok q).all (fun p => matchesQuery q p) = true
    ∧ ∀ p : Product, p ∈ searchProducts db .ok q → p ∈ db := by
  have key : ∀ p : Product, p ∈ searchProducts db .ok q →
      matchesQuery q p = true ∧ p ∈ db := by
    intro p hp
    rw [searchProducts_ok_eq] at hp
    have h1 : p ∈ sortByUpvotes (List.filter (matchesQuery q) db) :=
      (List.take_sublist _ _).mem hp
    have h2 : p ∈ List.filter (matchesQuery q) db := (mem_sortByUpvotes p _).mp h1
    have := List.mem_filter.mp h2
    exact ⟨this.2, this.1⟩
  refine ⟨List.all_eq_true.mpr (fun p hp => (key p hp).1), fun p hp => (key p hp).2⟩

/-- C7: for `1 ≤ page ≤ totalPages` the control's page list contains page
1, the last page and the current page, holds at most 7 entries, its
previous/next buttons are disabled exactly at page 1 and at the last page,
and every transition it offers — a numbered button, an enabled
previous/next step — stays within `[1, totalPages]`. -/
theorem renderPagination_inv (page tp : Nat) (h1 : 1 ≤ page) (h2 : page ≤ tp) :
    PageItem.num 1 ∈ renderPages page tp
    ∧ PageItem.num tp ∈ renderPages page tp
    ∧ PageItem.num page ∈ renderPages page tp
    ∧ (renderPages page tp).length ≤ 7
    ∧ (prevDisabled page = true ↔ page = 1)
    ∧ (nextDisabled page tp = true ↔ page = tp)
    ∧ (∀ n : Nat, PageItem.num n ∈ renderPages page tp → 1 ≤ n ∧ n ≤ tp)
    ∧ (prevDisabled page = false → 1 ≤ page - 1 ∧ page - 1 ≤ tp)
    ∧ (nextDisabled page tp = false → 1 ≤ page + 1 ∧ page + 1 ≤ tp) := by
  have hprev : prevDisabled page = true ↔ page = 1 := by
    simp [prevDisabled]
  have hnext : nextDisabled page tp = true ↔ page = tp := by
    simp [nextDisabled]
  have hprev' : prevDisabled page = false → 1 ≤ page - 1 ∧ page - 1 ≤ tp := by
    simp only [prevDisabled, beq_eq_false_iff_ne, ne_eq]
    omega
  have hnext' : nextDisabled page tp = false → 1 ≤ page + 1 ∧ page + 1 ≤ tp := by
    simp only [nextDisabled, beq_eq_false_iff_ne, ne_eq]
    omega
  unfold renderPages
  split_ifs with h5 h3 hru
  · refine ⟨?_, ?_, ?_, ?_, hprev, hnext, ?_, hprev', hnext'⟩
    · simp only [List.mem_map, List.mem_range, PageItem.num.injEq]
      exact ⟨0, by omega, by omega⟩
    · simp only [List.mem_map, List.mem_range, PageItem.num.injEq]
      exact ⟨tp - 1, by omega, by omega⟩
    · simp only [List.mem_map, List.mem_range, PageItem.num.injEq]
      exact ⟨page - 1, by omega, by omega⟩
    · simp only [List.length_map, List.length_range]
      omega
    · intro n hn
      simp only [List.mem_map, List.mem_range, PageItem.num.injEq] at hn
      obtain ⟨i, hi, rfl⟩ := hn
      omega
  · refine ⟨?_, ?_, ?_, ?_, hprev, hnext, ?_, hprev', hnext'⟩
    · simp
    · simp
    · simp only [List.mem_cons, List.mem_singleton, PageItem.num.injEq, reduceCtorEq,
        List.not_mem_nil, or_false]
      omega
    · simp
    · intro n hn
      simp only [List.mem_cons, List.mem_singleton, PageItem.num.injEq, reduceCtorEq,
        List.not_mem_nil, or_false, false_or] at hn
      omega
  · refine ⟨?_, ?_, ?_, ?_, hprev, hnext, ?_, hprev', hnext'⟩
    · simp
    · simp
    · simp only [List.mem_cons, List.mem_singleton, PageItem.num.injEq, reduceCtorEq,
        List.not_mem_nil, or_false, false_or]
      omega
    · simp
    · intro n hn
      simp only [List.mem_cons, List.mem_singleton, PageItem.num.injEq, reduceCtorEq,
        List.not_mem_nil, or_false, false_or] at hn
      omega
  · refine ⟨?_, ?_, ?_, ?_, hprev, hnext, ?_, hprev', hnext'⟩
    · simp
    · simp
    · simp
    · simp
    · intro n hn
      simp only [List.mem_cons, List.mem_singleton, PageItem.num.injEq, reduceCtorEq,
        List.not_mem_nil, or_false, false_or] at hn
      omega

theorem renderPagination_inv_witness :
    (1 : Nat) ≤ 1 ∧ (1 : Nat) ≤ 1
    ∧ (PageItem.num 1 ∈ renderPages 1 1
      ∧ PageItem.num 1 ∈ renderPages 1 1
      ∧ PageItem.num 1 ∈ renderPages 1 1
      ∧ (renderPages 1 1).length ≤ 7
      ∧ (prevDisabled 1 = true ↔ (1 : Nat) = 1)
      ∧ (nextDisabled 1 1 = true ↔ (1 : Nat) = 1)
      ∧ (∀ n : Nat, PageItem.num n ∈ renderPages 1 1 → 1 ≤ n ∧ n ≤ 1)
      ∧ (prevDisabled 1 = false → 1 ≤ 1 - 1 ∧ 1 - 1 ≤ 1)
      ∧ (nextDisabled 1 1 = false → 1 ≤ 1 + 1 ∧ 1 + 1 ≤ 1)) :=
  ⟨Nat.le_refl 1, Nat.le_refl 1, renderPagination_inv 1 1 (Nat.le_refl 1) (Nat.le_refl 1)⟩

end PHS
